import Mathlib

/-!
Verification development for the pyRevit ESG material-export script
(`pyrevit_export_materials.extension/.../Generate Material List.pushbutton/script.py`).

The script is IronPython running against the Revit API.  We shallowly embed
the data-extraction core as pure Lean functions:

* Python values flowing through the script (ints, floats, strings, `None`)
  are the inductive `PyObj`; Python floats are modelled as exact fractions
  (`Frac`, an unnormalized `Int`/`Nat` pair, kept computable for kernel
  evaluation).
* Revit parameters, elements, element types, compound-structure layers and
  materials are concrete structures; host lookups (`get_Parameter`,
  `LookupParameter`, `doc.GetElement`) are association-list lookups.
* Host calls which the script wraps in `try/except` are modelled as total
  functions; the two exception sites the claims are about (an exception
  inside `_get_element_info`, and an exception while enumerating the
  compound structure in `get_material_layers`) are modelled by explicit
  `Option String` fields (`infoRaises`, `csRaises`) carrying the exception
  text.
-/

/-- Exact fraction `num / den` (with `den` intended positive), the model of
a Python float.  Kept unnormalized so that all arithmetic is structural and
kernel-computable. -/
structure Frac where
  num : Int
  den : Nat
deriving DecidableEq, Repr

/-- Embed an integer as a fraction. -/
def Frac.ofInt (n : Int) : Frac := ⟨n, 1⟩

/-- Fraction addition (no normalization). -/
def Frac.add (a b : Frac) : Frac := ⟨a.num * b.den + b.num * a.den, a.den * b.den⟩

/-- Fraction negation. -/
def Frac.neg (a : Frac) : Frac := ⟨-a.num, a.den⟩

/-- Fraction subtraction. -/
def Frac.sub (a b : Frac) : Frac := Frac.add a (Frac.neg b)

/-- Fraction multiplication (no normalization). -/
def Frac.mul (a b : Frac) : Frac := ⟨a.num * b.num, a.den * b.den⟩

/-- Fraction division, keeping the denominator positive by moving the sign
of `b.num` into the numerator.  (Division by zero never occurs in the
script; it would be a `ZeroDivisionError` there.) -/
def Frac.div (a b : Frac) : Frac :=
  if b.num < 0 then ⟨-(a.num * b.den), a.den * b.num.natAbs⟩
  else ⟨a.num * b.den, a.den * b.num.natAbs⟩

/-- Order on fractions with positive denominators, by cross-multiplication. -/
def Frac.lt (a b : Frac) : Prop := a.num * b.den < b.num * a.den

instance (a b : Frac) : Decidable (Frac.lt a b) := by
  unfold Frac.lt
  infer_instance

/-- Floor of a fraction (flooring integer division). -/
def Frac.floor (a : Frac) : Int := Int.fdiv a.num a.den

/-- The fraction `10 ^ d`. -/
def Frac.pow10 (d : Nat) : Frac := ⟨((10 : Nat) ^ d : Nat), 1⟩

/-- Model of a Python value as it flows through the script: `None`, an int,
a float or a string. -/
inductive PyObj where
  | pnone : PyObj
  | pint : Int → PyObj
  | pnum : Frac → PyObj
  | pstr : String → PyObj
deriving DecidableEq, Repr

open PyObj

/-- Auxiliary decimal-digit scanner for the model of Python `float(str)`:
consumes leading digits, returning their value, how many were read, and the
remaining characters. -/
def parseDigitsAux : List Char → Nat → Nat → Nat × Nat × List Char
  | [], v, n => (v, n, [])
  | c :: cs, v, n =>
      if c.isDigit then parseDigitsAux cs (10 * v + (c.toNat - '0'.toNat)) (n + 1)
      else (v, n, c :: cs)

/-- Model of Python `float(s)` on a string: an optional sign, then digits
with an optional fractional part (at least one digit overall).  Returns
`none` when the string does not parse (Python raises `ValueError`).
Exponent/`inf`/`nan` forms and surrounding whitespace are not modelled; the
script only ever feeds it plain decimal strings. -/
def pyFloat (s : String) : Option Frac :=
  let cs := s.data
  let signed : Bool × List Char :=
    match cs with
    | '-' :: r => (true, r)
    | '+' :: r => (false, r)
    | r => (false, r)
  let neg := signed.1
  let body := signed.2
  let ires := parseDigitsAux body 0 0
  let ip := ires.1
  let ni := ires.2.1
  match ires.2.2 with
  | '.' :: r =>
      let fres := parseDigitsAux r 0 0
      let fp := fres.1
      let nf := fres.2.1
      if fres.2.2 = [] ∧ 0 < ni + nf then
        let q : Frac := ⟨(ip : Int) * ((10 : Nat) ^ nf : Nat) + (fp : Int), (10 : Nat) ^ nf⟩
        some (if neg then Frac.neg q else q)
      else none
  | [] => if 0 < ni then some (if neg then Frac.neg (Frac.ofInt ip) else Frac.ofInt ip) else none
  | _ => none

/-- Model of Python `float(x)` on an arbitrary value: `None` raises,
numbers pass through, strings are parsed. -/
def pyFloatObj : PyObj → Option Frac
  | pnone => none
  | pint n => some (Frac.ofInt n)
  | pnum q => some q
  | pstr s => pyFloat s

/-- Round-half-to-even, modelling the rounding used by CPython for
`round()` and `"{:.Nf}".format`. -/
def rhe (x : Frac) : Int :=
  let f := Frac.floor x
  let r := Frac.sub x (Frac.ofInt f)
  if Frac.lt r ⟨1, 2⟩ then f
  else if Frac.lt ⟨1, 2⟩ r then f + 1
  else if f % 2 = 0 then f else f + 1

/-- Model of Python `round(x, d)`. -/
def pyRound (x : Frac) (d : Nat) : Frac :=
  ⟨rhe (Frac.mul x (Frac.pow10 d)), (10 : Nat) ^ d⟩

/-- Decimal digits of a natural number, most significant first, via fuel
recursion (the fuel `n + 1` always suffices). -/
def natCharsAux : Nat → Nat → List Char
  | 0, _ => []
  | fuel + 1, n =>
      if n < 10 then [Nat.digitChar n]
      else natCharsAux fuel (n / 10) ++ [Nat.digitChar (n % 10)]

/-- Decimal rendering of a natural number as characters. -/
def natChars (n : Nat) : List Char := natCharsAux (n + 1) n

/-- Left-pad a digit string with `'0'` up to width `d`. -/
def padZeros (cs : List Char) (d : Nat) : List Char :=
  List.replicate (d - cs.length) '0' ++ cs

/-- Model of Python `"{:.{d}f}".format(x)`: fixed-point rendering with
exactly `d` fractional digits (the sign of a negative zero is not
modelled). -/
def fixedFormatChars (q : Frac) (d : Nat) : List Char :=
  let n : Int := rhe (Frac.mul q (Frac.pow10 d))
  let m : Nat := n.natAbs
  let sign : List Char := if n < 0 then ['-'] else []
  if d = 0 then sign ++ natChars m
  else sign ++ natChars (m / 10 ^ d) ++ ['.'] ++ padZeros (natChars (m % 10 ^ d)) d

/-- Model of Python `str.rstrip(c)` for a single character. -/
def rstripC (cs : List Char) (c : Char) : List Char :=
  (cs.reverse.dropWhile (fun x => x = c)).reverse

/-- The script's `Config.DEFAULT_DECIMALS`. -/
def Config_DEFAULT_DECIMALS : Nat := 5

/-- Embedding of `format_number(value, decimals)` (script lines 102-114):
format to `decimals` places, strip trailing zeros then a trailing dot,
guard against the empty string, and use `','` as the decimal separator;
`None`, `"N/A"` and unparsable input give `"N/A"`. -/
def format_number (value : PyObj) (decimals : Nat := Config_DEFAULT_DECIMALS) : String :=
  if value = pstr "N/A" ∨ value = pnone then "N/A"
  else
    match pyFloatObj value with
    | none => "N/A"
    | some q =>
        let f0 := fixedFormatChars q decimals
        let f1 := rstripC f0 '0'
        let f2 := rstripC f1 '.'
        let f3 := if f2 = [] then ['0'] else f2
        String.mk (f3.map (fun c => if c = '.' then ',' else c))

example : format_number (pnum ⟨25, 2⟩) 5 = "12,5" := by decide
example : format_number (pnum ⟨0, 1⟩) 5 = "0" := by decide
example : format_number pnone 5 = "N/A" := by decide
example : format_number (pstr "12,5") 5 = "N/A" := by decide
example : format_number (pstr "200") 5 = "200" := by decide
example : format_number (pnum ⟨-3, 2⟩) 2 = "-1,5" := by decide
example : format_number (pnum ⟨1200, 1⟩) 5 = "1200" := by decide

/-- Python truthiness for the modelled values. -/
def pyTruthy : PyObj → Bool
  | pnone => false
  | pint n => n != 0
  | pnum q => q.num != 0
  | pstr s => s != ""

/-- Model of Python `a or b`. -/
def pyOr (a b : PyObj) : PyObj := if pyTruthy a then a else b

/-- Model of Python `str(x)` for the values the script stringifies. -/
def pyStrOf : PyObj → String
  | pnone => "None"
  | pint n => toString n
  | pnum q => toString q.num ++ "/" ++ toString q.den
  | pstr s => s

/-- Lift an optional host string (`AsString()`/`AsValueString()` may return
`None`) into a Python value. -/
def optPy : Option String → PyObj
  | none => pnone
  | some s => pstr s

/-- Substring test on character lists (model of Python `in` on strings). -/
def listContainsSub : List Char → List Char → Bool
  | _, [] => true
  | [], _ :: _ => false
  | c :: cs, p :: ps => (List.isPrefixOf (p :: ps) (c :: cs)) || listContainsSub cs (p :: ps)

/-- Model of Python `pat in s` on strings. -/
def containsSub (s pat : String) : Bool := listContainsSub s.data pat.data

/-- Model of Python `s.startswith(pat)`. -/
def pyStartsWith (s pat : String) : Bool := List.isPrefixOf pat.data s.data

/-- Revit parameter storage type. -/
inductive StorageType where
  | double
  | integer
  | string
  | elementId
  | noneT
deriving DecidableEq, Repr

/-- Model of one Revit `Parameter`: its value presence, storage type, and
the host accessors the script calls on it. -/
structure Param where
  hasValue : Bool
  storage : StorageType
  asDouble : Frac
  asInteger : Int
  asString : Option String
  asValueString : Option String
deriving DecidableEq, Repr

/-- The parameters addressable on one host object: `builtin` models
`get_Parameter(BuiltInParameter.NAME)` keyed by the enum member name,
`named` models `LookupParameter(name)` (and iteration over `.Parameters`,
whose `Definition.Name` is the key). -/
structure ParamSet where
  builtin : List (String × Param)
  named : List (String × Param)
deriving DecidableEq, Repr

/-- Model of a Revit `Material` element. -/
structure Material where
  name : String
  materialClass : Option String
deriving DecidableEq, Repr

/-- Model of one compound-structure layer: `materialId = none` models
`ElementId.InvalidElementId` ("by category"); `width` is in internal
units. -/
structure Layer where
  materialId : Option Int
  width : Frac
deriving DecidableEq, Repr

/-- Model of an element type (the result of
`doc.GetElement(element.GetTypeId())`). -/
structure TypeE where
  id : Int
  name : Option String
  category : Option String
  pset : ParamSet
  hasCS : Bool
  cs : Option (List Layer)
deriving DecidableEq, Repr

/-- Model of `element.Category`: its name and optional category material
(with the material's `Id.IntegerValue`). -/
structure Cat where
  name : String
  material : Option (Int × Material)
deriving DecidableEq, Repr

/-- Model of `element.Symbol` (family instances). -/
structure SymbolE where
  name : String
  familyName : String
deriving DecidableEq, Repr

/-- Model of a stair-run element as the script uses it: its own parameters
and those of its type. -/
structure StairRun where
  pset : ParamSet
  typ : Option ParamSet
deriving DecidableEq, Repr

/-- Model of one Revit element (an Entity of the spec).  `wallType`,
`floorType`, `roofType` being `some` models `hasattr(element, ...)`
succeeding with a truthy named type; `csRaises`/`infoRaises` are the two
modelled exception sites (see the file header). -/
structure Elem where
  id : Int
  category : Option Cat
  pset : ParamSet
  typeE : Option TypeE
  typeId : Int
  exportGuid : Option String
  symbol : Option SymbolE
  wallType : Option String
  floorType : Option String
  roofType : Option String
  ownMaterialIds : List Int
  ownMaterialIdsOk : Bool
  stairsRuns : List StairRun
  csRaises : Option String
  infoRaises : Option String
deriving DecidableEq, Repr

/-- The ambient host state: which `BuiltInParameter` enum members exist in
this Revit version, the unit-conversion factors (or `none` when the unit
API is unavailable), and the document's material elements by id. -/
structure Env where
  avail : List String
  mm_unit : Option Frac
  sqm_unit : Option Frac
  cum_unit : Option Frac
  materials : List (Int × Material)
deriving DecidableEq, Repr

/-- Embedding of `convert_from_internal_units` (lines 60-67): identity when
no unit type is available, otherwise a linear conversion. -/
def convert_from_internal_units (v : Frac) (unit : Option Frac) : Frac :=
  match unit with
  | none => v
  | some k => Frac.mul v k

/-- Embedding of `get_safe_builtin_params` (lines 70-79): keep only the
enum member names that exist in this Revit version. -/
def get_safe_builtin_params (env : Env) (names : List String) : List String :=
  names.filter (fun n => env.avail.contains n)

/-- One lookup step of the resolver: `param = obj.get_Parameter(key)` (or
`LookupParameter`), succeeding when the parameter exists and
`param.HasValue`. -/
def lookupParamHit (ps : List (String × Param)) (k : String) : Option Param :=
  match ps.lookup k with
  | some p => if p.hasValue then some p else none
  | none => none

/-- Scan a key list in order for the first parameter hit. -/
def scanKeys (ps : List (String × Param)) (keys : List String) : Option Param :=
  keys.findSome? (lookupParamHit ps)

/-- How the resolver projects a hit parameter to a returned value (the
shared body of methods 1-4 of `get_parameter_value_comprehensive`): with a
unit type, `AsDouble` converted and formatted; otherwise integer storage is
stringified and string storage is `AsString() or AsValueString()`. -/
def param_value (p : Param) (unit_type : Option Frac) : PyObj :=
  match unit_type with
  | some u =>
      pstr (format_number (pnum (convert_from_internal_units p.asDouble (some u)))
        Config_DEFAULT_DECIMALS)
  | none =>
      if p.storage = StorageType.integer then pstr (toString p.asInteger)
      else pyOr (optPy p.asString) (optPy p.asValueString)

/-- Embedding of `get_parameter_value_comprehensive` (lines 260-331).
`inst` is the element's own parameter view, `typ` the view of its type
(`doc.GetElement(element.GetTypeId())`, `none` when that is `None`).
Method 1: safe built-ins on the instance; method 2: the same on the type;
methods 3-4 (only when `fallback_param_names` is non-empty, matching
Python truthiness of the argument): named lookup on the instance, then on
the type; otherwise the sentinel `"N/A"`. -/
def get_parameter_value_comprehensive (env : Env) (inst : ParamSet) (typ : Option ParamSet)
    (builtin_param_names : List String) (unit_type : Option Frac := none)
    (fallback_param_names : List String := []) : PyObj :=
  let safe := get_safe_builtin_params env builtin_param_names
  match scanKeys inst.builtin safe with
  | some p => param_value p unit_type
  | none =>
    match typ.bind (fun t => scanKeys t.builtin safe) with
    | some p => param_value p unit_type
    | none =>
      if fallback_param_names.isEmpty then pstr "N/A"
      else
        match scanKeys inst.named fallback_param_names with
        | some p => param_value p unit_type
        | none =>
          match typ.bind (fun t => scanKeys t.named fallback_param_names) with
          | some p => param_value p unit_type
          | none => pstr "N/A"

/-- The resolver's candidate parameters in precedence order, as the spec
describes them: safe built-in keys on the instance, the same keys on the
type, then the legacy names on the instance and on the type.  A parameter
is a candidate hit when it is present with a value. -/
def resolver_candidates (env : Env) (inst : ParamSet) (typ : Option ParamSet)
    (builtin_param_names fallback_param_names : List String) : List Param :=
  let safe := get_safe_builtin_params env builtin_param_names
  safe.filterMap (lookupParamHit inst.builtin)
    ++ (match typ with
        | some t => safe.filterMap (lookupParamHit t.builtin)
        | none => [])
    ++ (if fallback_param_names.isEmpty then []
        else
          fallback_param_names.filterMap (lookupParamHit inst.named)
            ++ (match typ with
                | some t => fallback_param_names.filterMap (lookupParamHit t.named)
                | none => []))

/-- Project an optional candidate hit the way the resolver does: a hit is
projected by `param_value`, no hit is the sentinel. -/
def value_or_na (unit_type : Option Frac) : Option Param → PyObj
  | some p => param_value p unit_type
  | none => pstr "N/A"

theorem findSome?_eq_filterMap_head? {α β : Type} (f : α → Option β) (l : List α) :
    l.findSome? f = (l.filterMap f).head? := by
  induction l with
  | nil => rfl
  | cons a l ih =>
      rw [List.findSome?_cons, List.filterMap_cons]
      cases h : f a with
      | none => exact ih
      | some b => rfl

theorem scanKeys_eq_head? (ps : List (String × Param)) (keys : List String) :
    scanKeys ps keys = (keys.filterMap (lookupParamHit ps)).head? :=
  findSome?_eq_filterMap_head? _ _

theorem resolver_eq_first_candidate (env : Env) (inst : ParamSet) (typ : Option ParamSet)
    (bnames : List String) (u : Option Frac) (fnames : List String) :
    get_parameter_value_comprehensive env inst typ bnames u fnames
      = value_or_na u (resolver_candidates env inst typ bnames fnames).head? := by
  cases typ with
  | none =>
      simp only [get_parameter_value_comprehensive, resolver_candidates,
        scanKeys_eq_head?, Option.none_bind]
      cases hg : fnames.isEmpty <;>
        cases hA : (get_safe_builtin_params env bnames).filterMap (lookupParamHit inst.builtin) <;>
        cases hC : fnames.filterMap (lookupParamHit inst.named) <;>
        simp [value_or_na]
  | some t =>
      simp only [get_parameter_value_comprehensive, resolver_candidates,
        scanKeys_eq_head?, Option.some_bind]
      cases hg : fnames.isEmpty <;>
        cases hA : (get_safe_builtin_params env bnames).filterMap (lookupParamHit inst.builtin) <;>
        cases hB : (get_safe_builtin_params env bnames).filterMap (lookupParamHit t.builtin) <;>
        cases hC : fnames.filterMap (lookupParamHit inst.named) <;>
        cases hD : fnames.filterMap (lookupParamHit t.named) <;>
        simp [value_or_na]

/-- C1.  The resolver returns the value of the first candidate key that is
present with a value, searched in strict precedence order: the built-in
keys on the instance in list order, then the same built-in keys on the
Type Entity, then the legacy/alternate names on the instance, then on the
Type Entity; a hit is converted (and rounded by formatting) exactly when a
unit spec is given (`param_value`), partial results are never merged, and
— provided no candidate's projected value is itself the literal sentinel —
the resolver returns `"N/A"` if and only if no candidate resolves. -/
theorem c1_resolver_strict_precedence (env : Env) (inst : ParamSet) (typ : Option ParamSet)
    (bnames : List String) (u : Option Frac) (fnames : List String) :
    (get_parameter_value_comprehensive env inst typ bnames u fnames
        = value_or_na u (resolver_candidates env inst typ bnames fnames).head?)
    ∧ ((∀ p ∈ resolver_candidates env inst typ bnames fnames, param_value p u ≠ pstr "N/A") →
        (get_parameter_value_comprehensive env inst typ bnames u fnames = pstr "N/A"
          ↔ resolver_candidates env inst typ bnames fnames = [])) := by
  refine ⟨resolver_eq_first_candidate env inst typ bnames u fnames, fun H => ?_⟩
  rw [resolver_eq_first_candidate env inst typ bnames u fnames]
  cases hc : resolver_candidates env inst typ bnames fnames with
  | nil => simp [value_or_na]
  | cons p t =>
      simp only [List.head?_cons, value_or_na]
      constructor
      · intro hna
        exact absurd hna (H p (hc ▸ List.mem_cons_self p t))
      · intro h
        exact absurd h (by simp)

/-- Result of `get_category_material_info`. -/
structure CatMatInfo where
  material_id : Int
  material_name : String
  material_class : String
deriving DecidableEq, Repr

/-- Embedding of `get_category_material_info` (lines 116-130): material
information from the element's category, `none` when the category or its
material is absent. -/
def get_category_material_info (e : Elem) : Option CatMatInfo :=
  match e.category with
  | none => none
  | some c =>
      match c.material with
      | none => none
      | some (mid, m) => some ⟨mid, m.name, m.materialClass.getD "Unknown"⟩

/-- Embedding of `is_stair_element` (lines 133-147): category named
`"Stairs"`, or containing `"stair"` case-insensitively. -/
def is_stair_element (e : Elem) : Bool :=
  match e.category with
  | some c => c.name = "Stairs" || containsSub c.name.toLower "stair"
  | none => false

/-- The resolver applied to an element: its own parameters plus those of
`doc.GetElement(element.GetTypeId())`. -/
def elem_resolve (env : Env) (e : Elem) (b : List String) (u : Option Frac)
    (f : List String) : PyObj :=
  get_parameter_value_comprehensive env e.pset (e.typeE.map TypeE.pset) b u f

/-- Embedding of `get_element_width` (lines 427-434). -/
def get_element_width (env : Env) (e : Elem) : PyObj :=
  elem_resolve env e ["DOOR_WIDTH", "WINDOW_WIDTH", "GENERIC_WIDTH", "FAMILY_WIDTH_PARAM"]
    env.mm_unit ["Width", "Rough Width", "Opening Width"]

/-- Embedding of `get_element_height` (lines 436-443). -/
def get_element_height (env : Env) (e : Elem) : PyObj :=
  elem_resolve env e
    ["DOOR_HEIGHT", "WINDOW_HEIGHT", "GENERIC_HEIGHT", "FAMILY_HEIGHT_PARAM",
      "WALL_USER_HEIGHT_PARAM"]
    env.mm_unit ["Height", "Rough Height", "Opening Height", "Unconnected Height"]

/-- Embedding of `get_element_thickness` (lines 445-452). -/
def get_element_thickness (env : Env) (e : Elem) : PyObj :=
  elem_resolve env e ["WALL_ATTR_WIDTH_PARAM", "GENERIC_THICKNESS", "FAMILY_THICKNESS_PARAM"]
    env.mm_unit ["Thickness", "Width"]

/-- Embedding of `get_element_area_robust` (lines 333-379): stair-specific
lookup, comprehensive lookup, a direct `LookupParameter("Area")` for
wall/floor/roof elements, then a scan of all parameters for area-like
names with a positive double value. -/
def get_element_area_robust (env : Env) (e : Elem) : PyObj :=
  let stairFirst : Option PyObj :=
    if is_stair_element e then
      let r := elem_resolve env e ["HOST_AREA_COMPUTED"] env.sqm_unit ["Area"]
      if r ≠ pstr "N/A" then some r else none
    else none
  match stairFirst with
  | some r => r
  | none =>
    let r := elem_resolve env e ["HOST_AREA_COMPUTED", "ROOM_AREA"] env.sqm_unit
      ["Area", "Gross Surface Area", "Net Surface Area"]
    if r ≠ pstr "N/A" then r
    else
      let m2 : Option PyObj :=
        if e.wallType.isSome || e.floorType.isSome || e.roofType.isSome then
          match e.pset.named.lookup "Area" with
          | some p =>
              if p.hasValue then
                some (pstr (format_number
                  (pnum (convert_from_internal_units p.asDouble env.sqm_unit))))
              else none
          | none => none
        else none
      match m2 with
      | some r => r
      | none =>
        match e.pset.named.findSome? (fun kp =>
            if kp.1.toLower ∈ (["area", "surface area", "gross area", "net area"] : List String)
            then
              if kp.2.hasValue ∧ kp.2.storage = StorageType.double
                  ∧ Frac.lt ⟨0, 1⟩ kp.2.asDouble then
                some (pstr (format_number
                  (pnum (convert_from_internal_units kp.2.asDouble env.sqm_unit))))
              else none
            else none) with
        | some r => r
        | none => pstr "N/A"

/-- Embedding of `get_element_volume_robust` (lines 381-425): the same
cascade as the area version, with cubic-meter units and volume-like
parameter names (its direct lookup is not gated on wall/floor/roof). -/
def get_element_volume_robust (env : Env) (e : Elem) : PyObj :=
  let stairFirst : Option PyObj :=
    if is_stair_element e then
      let r := elem_resolve env e ["HOST_VOLUME_COMPUTED"] env.cum_unit ["Volume"]
      if r ≠ pstr "N/A" then some r else none
    else none
  match stairFirst with
  | some r => r
  | none =>
    let r := elem_resolve env e ["HOST_VOLUME_COMPUTED", "ROOM_VOLUME"] env.cum_unit
      ["Volume", "Gross Volume", "Net Volume"]
    if r ≠ pstr "N/A" then r
    else
      let m2 : Option PyObj :=
        match e.pset.named.lookup "Volume" with
        | some p =>
            if p.hasValue then
              some (pstr (format_number
                (pnum (convert_from_internal_units p.asDouble env.cum_unit))))
            else none
        | none => none
      match m2 with
      | some r => r
      | none =>
        match e.pset.named.findSome? (fun kp =>
            if kp.1.toLower ∈ (["volume", "gross volume", "net volume"] : List String) then
              if kp.2.hasValue ∧ kp.2.storage = StorageType.double
                  ∧ Frac.lt ⟨0, 1⟩ kp.2.asDouble then
                some (pstr (format_number
                  (pnum (convert_from_internal_units kp.2.asDouble env.cum_unit))))
              else none
            else none) with
        | some r => r
        | none => pstr "N/A"

/-- Embedding of `get_export_guid` (lines 454-461): the export GUID, or
`"N/A"` when it is falsy or the call raises. -/
def get_export_guid (e : Elem) : String :=
  match e.exportGuid with
  | some s => if s = "" then "N/A" else s
  | none => "N/A"

/-- The `element_type.Category` fallback inside `get_element_type_name`. -/
def typeCatFallback (t : TypeE) : PyObj :=
  match t.category with
  | some cn => pstr (cn ++ " - ID " ++ toString t.id)
  | none => pstr ("Type ID " ++ toString t.id)

/-- Embedding of `get_element_type_name` (lines 513-560): comprehensive
lookup, then the type element's name, then its category label, then
symbol/wall/floor/roof fallbacks. -/
def get_element_type_name (env : Env) (e : Elem) : PyObj :=
  let r := elem_resolve env e ["ELEM_TYPE_PARAM", "SYMBOL_NAME_PARAM"] none
    ["Type Name", "Family and Type", "Type"]
  if r ≠ pstr "N/A" then r
  else if e.typeId = -1 then pstr "No TypeId"
  else
    match e.typeE with
    | some t =>
        match t.name with
        | some nm => if nm.trim ≠ "" then pstr nm else typeCatFallback t
        | none => typeCatFallback t
    | none =>
        match e.symbol with
        | some sy => pstr sy.name
        | none =>
            match e.wallType with
            | some n => pstr n
            | none =>
                match e.floorType with
                | some n => pstr n
                | none =>
                    match e.roofType with
                    | some n => pstr n
                    | none => pstr "No type found"

/-- Embedding of `get_family_name` (lines 562-586). -/
def get_family_name (env : Env) (e : Elem) : PyObj :=
  let r := elem_resolve env e ["ELEM_FAMILY_PARAM", "SYMBOL_FAMILY_NAME_PARAM"] none
    ["Family", "Family Name"]
  if r ≠ pstr "N/A" then r
  else
    match e.symbol with
    | some sy => pstr sy.familyName
    | none =>
        if e.wallType.isSome then pstr "Wall"
        else if e.floorType.isSome then pstr "Floor"
        else if e.roofType.isSome then pstr "Roof"
        else
          match e.category with
          | some c => pstr c.name
          | none => pstr "Unknown"

/-- Embedding of `get_family_type` (lines 588-613). -/
def get_family_type (env : Env) (e : Elem) : PyObj :=
  let r := elem_resolve env e
    ["ELEM_FAMILY_AND_TYPE_PARAM", "SYMBOL_FAMILY_AND_TYPE_NAMES_PARAM"] none
    ["Family and Type", "Type"]
  if r ≠ pstr "N/A" then r
  else
    match e.symbol with
    | some sy => pstr sy.name
    | none =>
        match e.wallType with
        | some n => pstr n
        | none =>
            match e.floorType with
            | some n => pstr n
            | none =>
                match e.roofType with
                | some n => pstr n
                | none =>
                    match e.typeE with
                    | some t =>
                        (match t.name with
                         | some nm => pstr nm
                         | none => pstr "Unknown")
                    | none => pstr "Unknown"

/-- The resolver applied to a stair-run element. -/
def run_resolve (env : Env) (r : StairRun) (b : List String) (u : Option Frac)
    (f : List String) : PyObj :=
  get_parameter_value_comprehensive env r.pset r.typ b u f

/-- Embedding of `get_stair_run_width` (lines 842-881): resolve the actual
run width from the first stair-run element, with a direct
`STAIRS_ACTUAL_RUN_WIDTH` access as last resort. -/
def get_stair_run_width (env : Env) (e : Elem) : PyObj :=
  if ¬ is_stair_element e then pstr "N/A"
  else
    match e.stairsRuns with
    | [] => pstr "N/A"
    | run :: _ =>
        let runw := run_resolve env run
          ["STAIRS_ACTUAL_RUN_WIDTH", "STAIRS_ATTR_ACTUAL_RUN_WIDTH", "STAIRS_ATTR_RUN_WIDTH"]
          env.mm_unit ["Actual Run Width", "Run Width", "Width"]
        if runw ≠ pstr "N/A" then runw
        else if env.avail.contains "STAIRS_ACTUAL_RUN_WIDTH" then
          match lookupParamHit run.pset.builtin "STAIRS_ACTUAL_RUN_WIDTH" with
          | some p =>
              pstr (format_number (pnum (convert_from_internal_units p.asDouble env.mm_unit)))
          | none => pstr "N/A"
        else pstr "N/A"

/-- The five stair-specific values produced by `get_stair_parameters`. -/
structure StairParams where
  numberOfRisers : PyObj
  riserHeight : PyObj
  treadDepth : PyObj
  stairWidth : PyObj
  totalHeight : PyObj
deriving DecidableEq, Repr

/-- Embedding of `get_stair_parameters` (lines 206-257).  For a non-stair
element the script returns `{}`, whose `.get(key, 'N/A')` reads are all
`"N/A"`; that empty dictionary is modelled by the all-`"N/A"` record. -/
def get_stair_parameters (env : Env) (e : Elem) : StairParams :=
  if ¬ is_stair_element e then
    ⟨pstr "N/A", pstr "N/A", pstr "N/A", pstr "N/A", pstr "N/A"⟩
  else
    let numberOfRisers := elem_resolve env e
      ["STAIRS_ATTR_TOTAL_RUN_RISERS", "STAIRS_ACTUAL_NUM_RISERS", "STAIRS_DESIRED_NUM_RISERS"]
      none
      ["Actual Number of Risers", "Desired Number of Risers", "Number of Risers",
        "Total Risers", "Risers"]
    let riserHeight := elem_resolve env e
      ["STAIRS_ATTR_RISER_HEIGHT_PARAM", "STAIRS_ACTUAL_RISER_HEIGHT",
        "STAIRS_DESIRED_RISER_HEIGHT"]
      env.mm_unit
      ["Actual Riser Height", "Maximum Riser Height", "Desired Riser Height", "Riser Height"]
    let treadDepth := elem_resolve env e
      ["STAIRS_ATTR_TREAD_DEPTH_PARAM", "STAIRS_ACTUAL_TREAD_DEPTH",
        "STAIRS_DESIRED_TREAD_DEPTH"]
      env.mm_unit
      ["Actual Tread Depth", "Minimum Tread Depth", "Desired Tread Depth", "Tread Depth"]
    let sw0 := get_stair_run_width env e
    let stairWidth :=
      if sw0 = pstr "N/A" then
        elem_resolve env e ["STAIRS_ATTR_RUN_WIDTH"] env.mm_unit
          ["Minimum Run Width", "Run Width", "Width"]
      else sw0
    let totalHeight := elem_resolve env e
      ["STAIRS_ATTR_TOTAL_HEIGHT", "STAIRS_ATTR_HEIGHT", "GENERIC_HEIGHT"] env.mm_unit
      ["Desired Stair Height", "Total Height", "Height", "Stair Height", "Overall Height"]
    ⟨numberOfRisers, riserHeight, treadDepth, stairWidth, totalHeight⟩

/-- One entry of the list `get_material_layers` returns (a Python dict
with keys LayerIndex / MaterialId / MaterialName / Thickness_mm). -/
structure LayerRec where
  layerIndex : Int
  materialId : PyObj
  materialName : PyObj
  thickness : PyObj
deriving DecidableEq, Repr

/-- The entry `get_material_layers` appends in its `except` handler. -/
def errorLayer (msg : String) : LayerRec :=
  ⟨-1, pstr "Error", pstr ("Error: " ++ msg), pstr "N/A"⟩

/-- Model of Python `s.replace(',', '.')`. -/
def replaceCommaDot (s : String) : String :=
  String.mk (s.data.map (fun c => if c = ',' then '.' else c))

/-- Model of Python `int(x)`: ints pass through, floats truncate toward
zero, strings must be (signed) decimal integers, `None` raises. -/
def pyToInt : PyObj → Option Int
  | pnone => none
  | pint n => some n
  | pnum q => some (Int.tdiv q.num (q.den : Int))
  | pstr s =>
      let signed : Bool × List Char :=
        match s.data with
        | '-' :: r => (true, r)
        | '+' :: r => (false, r)
        | r => (false, r)
      let ires := parseDigitsAux signed.2 0 0
      if ires.2.2 = [] ∧ 0 < ires.2.1 then
        some (if signed.1 then -(ires.1 : Int) else (ires.1 : Int))
      else none

/-- The body of `get_material_layers`' per-layer loop (lines 472-493).  An
invalid material id takes the "By Category" path; if the element has no
category there, `element.Category.Name` raises (`Except.error` carries the
exception text). -/
def layer_entry (env : Env) (e : Elem) (i : Nat) (l : Layer) : Except String LayerRec :=
  let thickness_mm := convert_from_internal_units l.width env.mm_unit
  match l.materialId with
  | none =>
      match get_category_material_info e with
      | some cm =>
          Except.ok ⟨i, pstr ("ByCategory_" ++ toString cm.material_id),
            pstr ("By Category: " ++ cm.material_name), pnum (pyRound thickness_mm 2)⟩
      | none =>
          match e.category with
          | some c =>
              Except.ok ⟨i, pstr "ByCategory_Unknown",
                pstr ("By Category: " ++ c.name), pnum (pyRound thickness_mm 2)⟩
          | none =>
              Except.error "NoneType object has no attribute Name"
  | some mid =>
      match env.materials.lookup mid with
      | some m => Except.ok ⟨i, pint mid, pstr m.name, pnum (pyRound thickness_mm 2)⟩
      | none => Except.ok ⟨i, pint mid, pstr "Unknown Material", pnum (pyRound thickness_mm 2)⟩

/-- The enumeration loop of `get_material_layers`: entries accumulate in
order; a raise mid-loop keeps the earlier entries and appends the error
entry (the `except` handler appends to the same `results` list). -/
def build_layers (env : Env) (e : Elem) : List (Nat × Layer) → List LayerRec
  | [] => []
  | (i, l) :: rest =>
      match layer_entry env e i l with
      | Except.ok r => r :: build_layers env e rest
      | Except.error msg => [errorLayer msg]

/-- Embedding of `get_material_layers` (lines 463-511).  `csRaises = some
msg` models the compound-structure enumeration itself raising (before any
entry is built): the `except` handler then returns exactly the one error
entry.  Otherwise: no type or no `GetCompoundStructure` attribute gives no
layers; a `None` structure falls back to a thickness-only pseudo-layer;
layers are enumerated in stacking order. -/
def get_material_layers (env : Env) (e : Elem) : List LayerRec :=
  match e.csRaises with
  | some msg => [errorLayer msg]
  | none =>
      match e.typeE with
      | none => []
      | some t =>
          if t.hasCS then
            match t.cs with
            | some layers => build_layers env e layers.enum
            | none =>
                let thickness := get_element_thickness env e
                if thickness ≠ pstr "N/A" then
                  [⟨0, pstr "N/A", pstr "N/A", thickness⟩]
                else []
          else []

/-- The final validity/deduplication loop of `get_element_material_ids`:
drop invalid ids (modelled as `-1`) and duplicates, keeping first
occurrences in order. -/
def validIdsLoop : List Int → List Int → List Int
  | [], acc => acc
  | x :: xs, acc =>
      if x ≠ -1 ∧ ¬ acc.contains x then validIdsLoop xs (acc ++ [x])
      else validIdsLoop xs acc

/-- Embedding of `get_element_material_ids` (lines 615-639): compound
structure material ids (for wall/floor/roof elements) followed by
`element.GetMaterialIds(False)` (skipped when that call raises), then
validated and deduplicated. -/
def get_element_material_ids (_env : Env) (e : Elem) : List Int :=
  let fromType : List Int :=
    if e.wallType.isSome || e.floorType.isSome || e.roofType.isSome then
      match e.typeE with
      | some t =>
          if t.hasCS then
            match t.cs with
            | some layers => layers.filterMap Layer.materialId
            | none => []
          else []
      | none => []
    else []
  let own : List Int := if e.ownMaterialIdsOk then e.ownMaterialIds else []
  validIdsLoop (fromType ++ own) []

/-- Embedding of `get_material_thickness` (lines 641-658): the width of
the compound-structure layer carrying the material, else the comprehensive
thickness search. -/
def get_material_thickness (env : Env) (e : Elem) (mid : Int) : PyObj :=
  let fromCS : Option PyObj :=
    match e.typeE with
    | some t =>
        if t.hasCS then
          match t.cs with
          | some layers =>
              match layers.find? (fun l => l.materialId = some mid) with
              | some l =>
                  some (pnum (pyRound (convert_from_internal_units l.width env.mm_unit) 5))
              | none => none
          | none => none
        else none
    | none => none
  match fromCS with
  | some v => v
  | none =>
      let thickness := get_element_thickness env e
      if thickness ≠ pstr "N/A" then thickness else pstr "N/A"

/-- Embedding of `calculate_layer_volume` (lines 660-676): for wall/floor
elements, robust area times the layer thickness in meters, rounded to 5
places; otherwise (or when parsing fails) `"N/A"`. -/
def calculate_layer_volume (env : Env) (e : Elem) (thickness_mm : PyObj) : PyObj :=
  if e.wallType.isSome || e.floorType.isSome then
    let area_str := get_element_area_robust env e
    if area_str ≠ pstr "N/A" ∧ thickness_mm ≠ pstr "N/A" then
      match pyFloat (replaceCommaDot (pyStrOf area_str)), pyFloatObj thickness_mm with
      | some area_sqm, some th =>
          pnum (pyRound (Frac.mul area_sqm (Frac.div th ⟨1000, 1⟩)) 5)
      | _, _ => pstr "N/A"
    else pstr "N/A"
  else pstr "N/A"

/-- Embedding of `calculate_material_area` (lines 699-705); its unused
`material_id` argument is dropped. -/
def calculate_material_area (env : Env) (e : Elem) : PyObj :=
  let area_str := get_element_area_robust env e
  if area_str ≠ pstr "N/A" then area_str else pstr "N/A"

/-- The dictionary `_get_element_info` builds (lines 1040-1058). -/
structure EInfo where
  element_id : Int
  category : String
  export_guid : String
  family_name : PyObj
  family_type : PyObj
  element_type : PyObj
  type_id : Int
  width : PyObj
  height : PyObj
  volume : PyObj
  area : PyObj
  stair_params : Option StairParams
deriving DecidableEq, Repr

/-- Embedding of `_get_element_info` (lines 1040-1058). -/
def get_element_info (env : Env) (e : Elem) : EInfo :=
  { element_id := e.id
    category := match e.category with | some c => c.name | none => "Unknown"
    export_guid := get_export_guid e
    family_name := get_family_name env e
    family_type := get_family_type env e
    element_type := get_element_type_name env e
    type_id := e.typeId
    width := get_element_width env e
    height := get_element_height env e
    volume := get_element_volume_robust env e
    area := get_element_area_robust env e
    stair_params := if is_stair_element e then some (get_stair_parameters env e) else none }

/-- An output Record: an insertion-ordered mapping from column name to
value (Python dicts preserve insertion order). -/
abbrev Record := List (String × PyObj)

/-- Embedding of `_get_material_class` (lines 1135-1153). -/
def get_material_class (env : Env) (layer : LayerRec) : String :=
  let material_id := layer.materialId
  let material_name := layer.materialName
  if pyStartsWith (pyStrOf material_id) "ByCategory" then
    if containsSub (pyStrOf material_name) "By Category:" then "By Category (Resolved)"
    else "By Category (Unresolved)"
  else if material_id = pstr "N/A" ∨ material_id = pstr "Error" then "Unknown"
  else if material_id = pstr "No_Material" then "No Material"
  else
    match pyToInt material_id with
    | some mid =>
        match env.materials.lookup mid with
        | some m =>
            match m.materialClass with
            | some mc => mc
            | none => "Unknown"
        | none => "Unknown"
    | none => "Unknown"

/-- The five stair columns `record.update(...)` appends to every record
(lines 1114-1132): the element's stair parameters for stairs, `"N/A"`
otherwise. -/
def stairFive (e : Elem) (info : EInfo) : List (String × PyObj) :=
  if is_stair_element e then
    match info.stair_params with
    | some sp =>
        [("NumberOfRisers", sp.numberOfRisers), ("RiserHeight_mm", sp.riserHeight),
          ("TreadDepth_mm", sp.treadDepth), ("StairWidth_mm", sp.stairWidth),
          ("TotalHeight_mm", sp.totalHeight)]
    | none =>
        [("NumberOfRisers", pstr "N/A"), ("RiserHeight_mm", pstr "N/A"),
          ("TreadDepth_mm", pstr "N/A"), ("StairWidth_mm", pstr "N/A"),
          ("TotalHeight_mm", pstr "N/A")]
  else
    [("NumberOfRisers", pstr "N/A"), ("RiserHeight_mm", pstr "N/A"),
      ("TreadDepth_mm", pstr "N/A"), ("StairWidth_mm", pstr "N/A"),
      ("TotalHeight_mm", pstr "N/A")]

/-- Embedding of `_create_material_record` (lines 1089-1133). -/
def create_material_record (env : Env) (e : Elem) (info : EInfo) (layer : LayerRec) :
    Record :=
  let thickness := layer.thickness
  let material_volume := calculate_layer_volume env e thickness
  let material_area := calculate_material_area env e
  [("ElementId", pint info.element_id),
    ("ElementCategory", pstr info.category),
    ("ExportGUID", pstr info.export_guid),
    ("FamilyName", info.family_name),
    ("FamilyType", info.family_type),
    ("Type", info.element_type),
    ("TypeId", pint info.type_id),
    ("Width_mm", info.width),
    ("Height_mm", info.height),
    ("LayerIndex", pint layer.layerIndex),
    ("MaterialId", layer.materialId),
    ("MaterialName", layer.materialName),
    ("MaterialClass", pstr (get_material_class env layer)),
    ("Thickness_mm", pstr (format_number thickness)),
    ("MaterialVolume_m3", pstr (format_number material_volume)),
    ("MaterialArea_m2", pstr (format_number material_area)),
    ("ElementTotalVolume_m3", pstr (format_number info.volume)),
    ("ElementTotalArea_m2", pstr (format_number info.area))]
  ++ stairFive e info

/-- The allow-list of `_create_basic_element_record` (lines 992-995). -/
def relevant_categories : List String :=
  ["Walls", "Floors", "Roofs", "Ceilings", "Structural Framing",
    "Structural Columns", "Doors", "Windows", "Furniture", "Casework", "Stairs"]

/-- Embedding of `_create_basic_element_record` (lines 988-1038): one
placeholder record for allow-listed categories, nothing otherwise. -/
def create_basic_element_record (env : Env) (e : Elem) (info : EInfo) : List Record :=
  match e.category with
  | some c =>
      if c.name ∈ relevant_categories then
        [[("ElementId", pint info.element_id),
          ("ElementCategory", pstr info.category),
          ("ExportGUID", pstr info.export_guid),
          ("FamilyName", info.family_name),
          ("FamilyType", info.family_type),
          ("Type", info.element_type),
          ("TypeId", pint info.type_id),
          ("Width_mm", info.width),
          ("Height_mm", info.height),
          ("LayerIndex", pint 0),
          ("MaterialId", pstr "No_Material"),
          ("MaterialName", pstr "No Material Assigned"),
          ("MaterialClass", pstr "Unknown"),
          ("Thickness_mm", get_element_thickness env e),
          ("MaterialVolume_m3", pstr "N/A"),
          ("MaterialArea_m2", info.area),
          ("ElementTotalVolume_m3", info.volume),
          ("ElementTotalArea_m2", info.area)]
          ++ stairFive e info]
      else []
  | none => []

/-- Embedding of `_process_element_layers` (lines 1060-1069), the record
part: one record per layer entry. -/
def process_element_layers (env : Env) (e : Elem) (info : EInfo)
    (layers : List LayerRec) : List Record :=
  layers.map (create_material_record env e info)

/-- The `by_category_materials` bookkeeping of `_process_element_layers`. -/
def by_category_count (layers : List LayerRec) : Nat :=
  (layers.filter (fun l => pyStartsWith (pyStrOf l.materialId) "ByCategory")).length

/-- Embedding of `_process_element_fallback` (lines 1071-1087): one record
per resolved material id. -/
def process_element_fallback (env : Env) (e : Elem) (info : EInfo) : List Record :=
  (get_element_material_ids env e).filterMap (fun mid =>
    match env.materials.lookup mid with
    | some m =>
        some (create_material_record env e info
          ⟨0, pint mid, pstr (if m.name = "" then "Unnamed Material" else m.name),
            get_material_thickness env e mid⟩)
    | none => none)

/-- The `debug_info` counters of `MaterialDataExtractor` (lines 890-901). -/
structure Dbg where
  total_elements : Nat
  elements_with_category : Nat
  elements_with_materials : Nat
  elements_with_layers : Nat
  elements_processed : Nat
  errors : Nat
  elements_with_area : Nat
  elements_with_volume : Nat
  by_category_materials : Nat
  stair_elements : Nat
deriving DecidableEq, Repr

/-- The counters as `__init__` leaves them, with `total_elements` set as
`extract_all_materials` does on entry. -/
def Dbg.init (total : Nat) : Dbg := ⟨total, 0, 0, 0, 0, 0, 0, 0, 0, 0⟩

/-- The mutable state of one `MaterialDataExtractor`. -/
structure ExtractorState where
  processed_elements : Nat
  material_records : Nat
  debug_info : Dbg
deriving DecidableEq, Repr

/-- Embedding of `_process_element` (lines 903-960): the records the
element contributes together with the updated counters.  An element with
no category is skipped; a modelled exception while building the record
(`infoRaises`) is caught at the element boundary, increments the error
counter and contributes nothing; otherwise layers, then the material-id
fallback, then the basic placeholder record. -/
def process_element (env : Env) (d : Dbg) (e : Elem) : List Record × Dbg :=
  match e.category with
  | none => ([], d)
  | some _ =>
      let d := { d with elements_with_category := d.elements_with_category + 1 }
      let d := if is_stair_element e then
          { d with stair_elements := d.stair_elements + 1 } else d
      match e.infoRaises with
      | some _ => ([], { d with errors := d.errors + 1 })
      | none =>
          let info := get_element_info env e
          let d := if info.area ≠ pstr "N/A" then
              { d with elements_with_area := d.elements_with_area + 1 } else d
          let d := if info.volume ≠ pstr "N/A" then
              { d with elements_with_volume := d.elements_with_volume + 1 } else d
          let material_layers := get_material_layers env e
          if material_layers ≠ [] then
            (process_element_layers env e info material_layers,
              { d with
                  elements_with_layers := d.elements_with_layers + 1,
                  by_category_materials :=
                    d.by_category_materials + by_category_count material_layers })
          else
            let fallback_data := process_element_fallback env e info
            if fallback_data ≠ [] then (fallback_data, d)
            else (create_basic_element_record env e info, d)

/-- The records one element contributes, as a function of the element and
host state alone. -/
def element_records (env : Env) (e : Elem) : List Record :=
  (process_element env (Dbg.init 0) e).1

/-- The loop of `extract_all_materials` (lines 970-978): accumulate each
element's records (when non-empty) and update the counters. -/
def extract_loop (env : Env) :
    List Elem → List Record × ExtractorState → List Record × ExtractorState
  | [], acc => acc
  | e :: rest, (records, s) =>
      let pd := process_element env s.debug_info e
      let next : List Record × ExtractorState :=
        if pd.1 ≠ [] then
          (records ++ pd.1,
            { processed_elements := s.processed_elements + 1,
              material_records := s.material_records + pd.1.length,
              debug_info :=
                { pd.2 with
                    elements_with_materials := pd.2.elements_with_materials + 1 } })
        else
          (records,
            { s with debug_info := pd.2,
                     processed_elements := s.processed_elements + 1 })
      extract_loop env rest next

/-- Embedding of `extract_all_materials` (lines 962-983) on a given
element sequence (the `FilteredElementCollector` result is the input). -/
def extract_all_materials (env : Env) (elements : List Elem) :
    List Record × ExtractorState :=
  extract_loop env elements ([], ⟨0, 0, Dbg.init elements.length⟩)

/-- The aggregated record sequence of one run (the spec's `aggregate`). -/
def aggregate (env : Env) (elements : List Elem) : List Record :=
  (extract_all_materials env elements).1

/-- The fixed column set `save_to_csv` writes (lines 1204-1215): 18 base
columns followed by the 5 stair columns. -/
def all_fieldnames : List String :=
  ["ElementId", "ElementCategory", "ExportGUID", "FamilyName", "FamilyType", "Type", "TypeId",
    "Width_mm", "Height_mm", "LayerIndex",
    "MaterialId", "MaterialName", "MaterialClass",
    "Thickness_mm", "MaterialVolume_m3", "MaterialArea_m2",
    "ElementTotalVolume_m3", "ElementTotalArea_m2",
    "NumberOfRisers", "RiserHeight_mm", "TreadDepth_mm", "StairWidth_mm", "TotalHeight_mm"]

/-- Model of Python `record.get(field, 'N/A')`. -/
def record_get (r : Record) (k : String) (dflt : PyObj) : PyObj :=
  match r.lookup k with
  | some v => v
  | none => dflt

/-- The normalization loop of `save_to_csv` (lines 1217-1222): every row
gets exactly the fixed columns, in order, missing values becoming the
literal `"N/A"`. -/
def normalize_record (r : Record) : Record :=
  all_fieldnames.map (fun f => (f, record_get r f (pstr "N/A")))

/-- The outcome of the save dialog. -/
inductive DialogOutcome where
  | ok (path : String)
  | cancel
deriving DecidableEq, Repr

/-- The delimited file `save_to_csv` writes: path, header row, data rows. -/
structure CsvFile where
  path : String
  header : List String
  rows : List Record
deriving DecidableEq, Repr

/-- Embedding of `save_to_csv` (lines 1182-1249): on a confirmed dialog it
writes the header and one normalized row per record and returns the path
with the record count; on cancel it returns `(None, 0)` and writes
nothing.  (With no records only the header is written, which coincides
with `rows = []`.) -/
def save_to_csv (dialog : DialogOutcome) (material_data : List Record) :
    (Option String × Nat) × Option CsvFile :=
  match dialog with
  | DialogOutcome.cancel => ((none, 0), none)
  | DialogOutcome.ok path =>
      ((some path, material_data.length),
        some ⟨path, all_fieldnames, material_data.map normalize_record⟩)

theorem process_element_fst_eq (env : Env) (d : Dbg) (e : Elem) :
    (process_element env d e).1 = element_records env e := by
  unfold element_records process_element
  cases e.category with
  | none => rfl
  | some c =>
      cases e.infoRaises with
      | some m => rfl
      | none =>
          dsimp only
          split
          · rfl
          · split <;> rfl

theorem extract_loop_records (env : Env) (es : List Elem) (records : List Record)
    (s : ExtractorState) :
    (extract_loop env es (records, s)).1 = records ++ es.flatMap (element_records env) := by
  induction es generalizing records s with
  | nil => simp [extract_loop]
  | cons e rest ih =>
      rw [extract_loop]
      dsimp only
      by_cases h : (process_element env s.debug_info e).1 = []
      · rw [if_neg (by simp [h])]
        rw [ih]
        rw [List.flatMap_cons, ← process_element_fst_eq env s.debug_info e, h]
        simp
      · rw [if_pos (by simp [h])]
        rw [ih]
        rw [List.flatMap_cons, ← process_element_fst_eq env s.debug_info e]
        simp [List.append_assoc]

theorem aggregate_eq_flatMap (env : Env) (es : List Elem) :
    aggregate env es = es.flatMap (element_records env) := by
  unfold aggregate extract_all_materials
  rw [extract_loop_records]
  simp

theorem natCharsAux_mem : ∀ (fuel n : Nat) (c : Char), c ∈ natCharsAux fuel n →
    ∃ k, k < 10 ∧ c = Nat.digitChar k := by
  intro fuel
  induction fuel with
  | zero => intro n c h; simp [natCharsAux] at h
  | succ fuel ih =>
      intro n c h
      rw [natCharsAux] at h
      by_cases hn : n < 10
      · rw [if_pos hn] at h
        simp at h
        exact ⟨n, hn, h⟩
      · rw [if_neg hn] at h
        rcases List.mem_append.1 h with h1 | h2
        · exact ih _ _ h1
        · simp at h2
          exact ⟨n % 10, Nat.mod_lt _ (by norm_num), h2⟩

theorem natCharsAux_cons : ∀ (fuel n : Nat), fuel ≠ 0 →
    ∃ k t, k < 10 ∧ natCharsAux fuel n = Nat.digitChar k :: t := by
  intro fuel
  induction fuel with
  | zero => intro n h; exact absurd rfl h
  | succ fuel ih =>
      intro n _
      rw [natCharsAux]
      by_cases hn : n < 10
      · rw [if_pos hn]
        exact ⟨n, [], hn, rfl⟩
      · rw [if_neg hn]
        cases fuel with
        | zero =>
            refine ⟨n % 10, [], Nat.mod_lt _ (by norm_num), ?_⟩
            simp [natCharsAux]
        | succ fuel' =>
            obtain ⟨k, t, hk, ht⟩ := ih (n / 10) (Nat.succ_ne_zero _)
            exact ⟨k, t ++ [Nat.digitChar (n % 10)], hk, by rw [ht]; rfl⟩

theorem digitChar_ne_dot : ∀ k, k < 10 → Nat.digitChar k ≠ '.' := by decide

theorem digitChar_ne_comma : ∀ k, k < 10 → Nat.digitChar k ≠ ',' := by decide

theorem digitChar_ne_zero_iff : ∀ k, k < 10 → (Nat.digitChar k = '0' ↔ k = 0) := by decide

/-- Explicit let-free expansion of the fixed-point rendering. -/
theorem fixedFormatChars_expand (q : Frac) (d : Nat) :
    fixedFormatChars q d =
      (if rhe (Frac.mul q (Frac.pow10 d)) < 0 then ['-'] else []) ++
        (if d = 0 then natChars (rhe (Frac.mul q (Frac.pow10 d))).natAbs
         else
           natChars ((rhe (Frac.mul q (Frac.pow10 d))).natAbs / 10 ^ d) ++ ['.'] ++
             padZeros (natChars ((rhe (Frac.mul q (Frac.pow10 d))).natAbs % 10 ^ d)) d) := by
  by_cases hd : d = 0 <;> simp [fixedFormatChars, hd, List.append_assoc]

/-- Every character of the fixed-point rendering is a sign, a dot, or a
decimal digit. -/
theorem mem_fixedFormatChars (q : Frac) (d : Nat) (c : Char)
    (h : c ∈ fixedFormatChars q d) :
    c = '-' ∨ c = '.' ∨ ∃ k, k < 10 ∧ c = Nat.digitChar k := by
  rw [fixedFormatChars_expand] at h
  rcases List.mem_append.1 h with h1 | h2
  · left
    by_cases hs : rhe (Frac.mul q (Frac.pow10 d)) < 0
    · rw [if_pos hs] at h1; simpa using h1
    · rw [if_neg hs] at h1; simp at h1
  · by_cases hd : d = 0
    · rw [if_pos hd] at h2
      exact Or.inr (Or.inr (natCharsAux_mem _ _ _ h2))
    · rw [if_neg hd] at h2
      rcases List.mem_append.1 h2 with h3 | h4
      · rcases List.mem_append.1 h3 with h5 | h6
        · exact Or.inr (Or.inr (natCharsAux_mem _ _ _ h5))
        · right; left; simpa using h6
      · unfold padZeros at h4
        rcases List.mem_append.1 h4 with h7 | h8
        · have h0 := List.eq_of_mem_replicate h7
          exact Or.inr (Or.inr ⟨0, by norm_num, by rw [h0]; decide⟩)
        · exact Or.inr (Or.inr (natCharsAux_mem _ _ _ h8))

/-- The rendering starts with the sign or a digit. -/
theorem fixedFormatChars_head (q : Frac) (d : Nat) (c : Char)
    (h : (fixedFormatChars q d).head? = some c) :
    c = '-' ∨ ∃ k, k < 10 ∧ c = Nat.digitChar k := by
  rw [fixedFormatChars_expand] at h
  by_cases hs : rhe (Frac.mul q (Frac.pow10 d)) < 0
  · rw [if_pos hs] at h
    simp at h
    exact Or.inl h.symm
  · rw [if_neg hs] at h
    by_cases hd : d = 0
    · rw [if_pos hd] at h
      obtain ⟨k, t, hk, ht⟩ := natCharsAux_cons
        ((rhe (Frac.mul q (Frac.pow10 d))).natAbs + 1)
        (rhe (Frac.mul q (Frac.pow10 d))).natAbs (Nat.succ_ne_zero _)
      rw [List.nil_append, natChars, ht] at h
      simp at h
      exact Or.inr ⟨k, hk, h.symm⟩
    · rw [if_neg hd] at h
      obtain ⟨k, t, hk, ht⟩ := natCharsAux_cons
        ((rhe (Frac.mul q (Frac.pow10 d))).natAbs / 10 ^ d + 1)
        ((rhe (Frac.mul q (Frac.pow10 d))).natAbs / 10 ^ d) (Nat.succ_ne_zero _)
      rw [List.nil_append, natChars, ht] at h
      simp at h
      exact Or.inr ⟨k, hk, h.symm⟩

theorem dot_not_mem_natCharsAux (fuel n : Nat) : '.' ∉ natCharsAux fuel n := by
  intro h
  obtain ⟨k, hk, hc⟩ := natCharsAux_mem _ _ _ h
  exact digitChar_ne_dot k hk hc.symm

theorem comma_not_mem_natCharsAux (fuel n : Nat) : ',' ∉ natCharsAux fuel n := by
  intro h
  obtain ⟨k, hk, hc⟩ := natCharsAux_mem _ _ _ h
  exact digitChar_ne_comma k hk hc.symm

theorem dot_not_mem_natChars (n : Nat) : '.' ∉ natChars n :=
  dot_not_mem_natCharsAux _ _

theorem comma_not_mem_natChars (n : Nat) : ',' ∉ natChars n :=
  comma_not_mem_natCharsAux _ _

theorem count_dot_fixedFormatChars (q : Frac) (d : Nat) :
    (fixedFormatChars q d).count '.' ≤ 1 := by
  rw [fixedFormatChars_expand, List.count_append]
  have hsign : (if rhe (Frac.mul q (Frac.pow10 d)) < 0 then ['-'] else []).count '.' = 0 := by
    split <;> decide
  rw [hsign, Nat.zero_add]
  by_cases hd : d = 0
  · rw [if_pos hd, List.count_eq_zero.2 (dot_not_mem_natChars _)]
    decide
  · rw [if_neg hd, List.count_append, List.count_append]
    unfold padZeros
    rw [List.count_append]
    have hrep : ('.' ∉ List.replicate
        (d - (natChars ((rhe (Frac.mul q (Frac.pow10 d))).natAbs % 10 ^ d)).length) '0') := by
      intro h
      have := List.eq_of_mem_replicate h
      simp at this
    rw [List.count_eq_zero.2 (dot_not_mem_natChars _),
      List.count_eq_zero.2 (dot_not_mem_natChars _),
      List.count_eq_zero.2 hrep]
    decide

theorem comma_not_mem_fixedFormatChars (q : Frac) (d : Nat) :
    ',' ∉ fixedFormatChars q d := by
  intro h
  rcases mem_fixedFormatChars q d ',' h with h1 | h1 | ⟨k, hk, hc⟩
  · exact absurd h1 (by decide)
  · exact absurd h1 (by decide)
  · exact digitChar_ne_comma k hk hc.symm

theorem rstripC_isPre (l : List Char) (c : Char) : rstripC l c <+: l := by
  unfold rstripC
  refine ⟨(l.reverse.takeWhile (fun x => x = c)).reverse, ?_⟩
  rw [← List.reverse_append, List.takeWhile_append_dropWhile, List.reverse_reverse]

theorem rstripC_decomp (l : List Char) (c : Char) :
    ∃ r, l = rstripC l c ++ r ∧ ∀ x ∈ r, x = c := by
  unfold rstripC
  refine ⟨(l.reverse.takeWhile (fun x => x = c)).reverse, ?_, ?_⟩
  · rw [← List.reverse_append, List.takeWhile_append_dropWhile, List.reverse_reverse]
  · intro x hx
    have hx' := List.mem_reverse.1 hx
    have := List.mem_takeWhile_imp hx'
    simpa using this

theorem rstripC_getLast? (l : List Char) (c : Char) : (rstripC l c).getLast? ≠ some c := by
  unfold rstripC
  rw [List.getLast?_reverse]
  generalize l.reverse = m
  induction m with
  | nil => simp
  | cons a t ih =>
      rw [List.dropWhile_cons]
      by_cases h : a = c
      · rw [if_pos (by simpa using h)]
        exact ih
      · rw [if_neg (by simpa using h)]
        simp [h]

theorem head?_of_pre {l₁ l₂ : List Char} (h : l₁ <+: l₂) (hne : l₁ ≠ []) :
    l₂.head? = l₁.head? := by
  obtain ⟨t, rfl⟩ := h
  cases l₁ with
  | nil => exact absurd rfl hne
  | cons a t' => rfl

theorem count_le_of_pre {l₁ l₂ : List Char} (c : Char) (h : l₁ <+: l₂) :
    l₁.count c ≤ l₂.count c := by
  obtain ⟨t, rfl⟩ := h
  rw [List.count_append]
  exact Nat.le_add_right _ _

theorem data_mk (l : List Char) : (String.mk l).data = l := rfl

/-- Unfolding `format_number` on a numeric value. -/
theorem format_number_pnum (q : Frac) (d : Nat) :
    format_number (pnum q) d =
      String.mk ((if rstripC (rstripC (fixedFormatChars q d) '0') '.' = [] then ['0']
        else rstripC (rstripC (fixedFormatChars q d) '0') '.').map
        (fun c => if c = '.' then ',' else c)) := rfl

theorem format_number_pnum_ne_empty (q : Frac) (d : Nat) : format_number (pnum q) d ≠ "" := by
  rw [format_number_pnum]
  intro h
  have h' := congrArg String.data h
  rw [data_mk] at h'
  rw [List.map_eq_nil_iff] at h'
  by_cases hs : rstripC (rstripC (fixedFormatChars q d) '0') '.' = []
  · rw [if_pos hs] at h'
    exact absurd h' (by simp)
  · rw [if_neg hs] at h'
    exact hs h'

theorem format_number_pnum_no_dot (q : Frac) (d : Nat) :
    '.' ∉ (format_number (pnum q) d).data := by
  rw [format_number_pnum, data_mk]
  intro h
  obtain ⟨c, _, hrepl⟩ := List.mem_map.1 h
  by_cases hcd : c = '.'
  · rw [if_pos hcd] at hrepl
    exact absurd hrepl (by decide)
  · rw [if_neg hcd] at hrepl
    exact hcd hrepl

theorem format_number_pnum_head (q : Frac) (d : Nat) :
    (format_number (pnum q) d).data.head? ≠ some ',' := by
  rw [format_number_pnum, data_mk]
  by_cases hs : rstripC (rstripC (fixedFormatChars q d) '0') '.' = []
  · rw [if_pos hs]
    decide
  · rw [if_neg hs, List.head?_map]
    have hpre : rstripC (rstripC (fixedFormatChars q d) '0') '.' <+: fixedFormatChars q d :=
      (rstripC_isPre _ '.').trans (rstripC_isPre _ '0')
    cases hh : (rstripC (rstripC (fixedFormatChars q d) '0') '.').head? with
    | none => simp
    | some c =>
        have hf : (fixedFormatChars q d).head? = some c := by
          rw [head?_of_pre hpre hs]
          exact hh
        intro hcon
        rw [Option.map_some'] at hcon
        have hrepl : (if c = '.' then ',' else c) = ',' := by
          injection hcon
        rcases fixedFormatChars_head q d c hf with h1 | ⟨k, hk, hc⟩
        · rw [h1] at hrepl
          exact absurd hrepl (by decide)
        · rw [hc, if_neg (digitChar_ne_dot k hk)] at hrepl
          exact digitChar_ne_comma k hk hrepl

theorem format_number_pnum_last_ne_comma (q : Frac) (d : Nat) :
    (format_number (pnum q) d).data.getLast? ≠ some ',' := by
  rw [format_number_pnum, data_mk]
  by_cases hs : rstripC (rstripC (fixedFormatChars q d) '0') '.' = []
  · rw [if_pos hs]
    decide
  · rw [if_neg hs, List.getLast?_map]
    cases hl : (rstripC (rstripC (fixedFormatChars q d) '0') '.').getLast? with
    | none => simp
    | some c =>
        intro hcon
        rw [Option.map_some'] at hcon
        have hrepl : (if c = '.' then ',' else c) = ',' := by
          injection hcon
        have hcd : c ≠ '.' := by
          intro hcd
          rw [hcd] at hl
          exact rstripC_getLast? _ '.' hl
        rw [if_neg hcd] at hrepl
        have hcmem : c ∈ fixedFormatChars q d :=
          ((rstripC_isPre _ '.').trans (rstripC_isPre _ '0')).subset
            (List.mem_of_mem_getLast? hl)
        rw [hrepl] at hcmem
        exact comma_not_mem_fixedFormatChars q d hcmem

theorem format_number_pnum_trailing (q : Frac) (d : Nat) :
    ',' ∈ (format_number (pnum q) d).data →
      (format_number (pnum q) d).data.getLast? ≠ some '0' := by
  rw [format_number_pnum, data_mk]
  intro hmem hcon
  by_cases hs : rstripC (rstripC (fixedFormatChars q d) '0') '.' = []
  · rw [if_pos hs] at hmem
    exact absurd hmem (by decide)
  · rw [if_neg hs] at hmem hcon
    obtain ⟨c, hcmem, hrepl⟩ := List.mem_map.1 hmem
    have hcdot : c = '.' := by
      by_cases hcd : c = '.'
      · exact hcd
      · rw [if_neg hcd] at hrepl
        have : c ∈ fixedFormatChars q d :=
          ((rstripC_isPre _ '.').trans (rstripC_isPre _ '0')).subset hcmem
        rw [hrepl] at this
        exact absurd this (comma_not_mem_fixedFormatChars q d)
    rw [hcdot] at hcmem
    obtain ⟨r, hr, hrall⟩ := rstripC_decomp (rstripC (fixedFormatChars q d) '0') '.'
    have hreq : rstripC (fixedFormatChars q d) '0'
        = rstripC (rstripC (fixedFormatChars q d) '0') '.' := by
      cases r with
      | nil =>
          rw [List.append_nil] at hr
          exact hr
      | cons a rt =>
          exfalso
          have h1 : 0 < (rstripC (rstripC (fixedFormatChars q d) '0') '.').count '.' :=
            List.count_pos_iff.2 hcmem
          have ha : a = '.' := hrall a (List.mem_cons_self a rt)
          have h2 : 0 < (a :: rt).count '.' := by
            rw [ha]
            simp [List.count_cons]
          have h3 : 2 ≤ (rstripC (fixedFormatChars q d) '0').count '.' := by
            rw [hr, List.count_append]
            omega
          have h4 : (rstripC (fixedFormatChars q d) '0').count '.'
              ≤ (fixedFormatChars q d).count '.' :=
            count_le_of_pre _ (rstripC_isPre _ '0')
          have h5 := count_dot_fixedFormatChars q d
          omega
    rw [List.getLast?_map] at hcon
    cases hl : (rstripC (rstripC (fixedFormatChars q d) '0') '.').getLast? with
    | none => rw [hl] at hcon; exact absurd hcon (by simp)
    | some c' =>
        rw [hl, Option.map_some'] at hcon
        have hrepl' : (if c' = '.' then ',' else c') = '0' := by
          injection hcon
        have hcd' : c' ≠ '.' := by
          intro hcd'
          rw [hcd'] at hl
          exact rstripC_getLast? _ '.' hl
        rw [if_neg hcd'] at hrepl'
        rw [hrepl'] at hl
        rw [← hreq] at hl
        exact rstripC_getLast? _ '0' hl

/-- C5.  `format_number` returns `"N/A"` when the input is `None`, the
string `"N/A"`, or unparsable as a float; the concrete value `12.50000` at
5 decimals formats as `"12,5"` and `0.00000` as `"0"`; and for every
numeric value and decimal count the output is non-empty (0 never formats
as the empty string), uses no `'.'`, uses `','` as the decimal separator
with at least one leading character that is not the separator, never ends
in the separator, and carries no trailing zero after the separator
(trailing zeros are stripped). -/
theorem c5_format_number_contract :
    (∀ d : Nat, format_number pnone d = "N/A")
    ∧ (∀ d : Nat, format_number (pstr "N/A") d = "N/A")
    ∧ (∀ (s : String) (d : Nat), pyFloat s = none → format_number (pstr s) d = "N/A")
    ∧ format_number (pnum ⟨25, 2⟩) 5 = "12,5"
    ∧ format_number (pnum ⟨0, 1⟩) 5 = "0"
    ∧ (∀ (q : Frac) (d : Nat),
        format_number (pnum q) d ≠ ""
        ∧ '.' ∉ (format_number (pnum q) d).data
        ∧ (format_number (pnum q) d).data.head? ≠ some ','
        ∧ (format_number (pnum q) d).data.getLast? ≠ some ','
        ∧ (',' ∈ (format_number (pnum q) d).data →
            (format_number (pnum q) d).data.getLast? ≠ some '0')) := by
  refine ⟨fun d => rfl, fun d => rfl, ?_, by decide, by decide, ?_⟩
  · intro s d hparse
    by_cases hs : s = "N/A"
    · rw [hs]
      rfl
    · simp [format_number, hs, pyFloatObj, hparse]
  · intro q d
    exact ⟨format_number_pnum_ne_empty q d, format_number_pnum_no_dot q d,
      format_number_pnum_head q d, format_number_pnum_last_ne_comma q d,
      format_number_pnum_trailing q d⟩

/-- Witness for C5: the unparsable string `"abc"` (with its hypothesis
discharged concretely) formats as `"N/A"`. -/
theorem c5_format_number_contract_witness :
    pyFloat "abc" = none ∧ format_number (pstr "abc") 5 = "N/A" :=
  ⟨by decide, c5_format_number_contract.2.2.1 "abc" 5 (by decide)⟩

/-- C9.  The aggregated record sequence does not depend on the extractor's
mutable state (counters): any two initial states produce the same records,
and the output is the deterministic per-element function `element_records`
folded over the entity sequence alone — so running the extraction twice
over the same sequence yields identical record sequences. -/
theorem c9_aggregate_state_independent (env : Env) (es : List Elem) :
    (∀ s₁ s₂ : ExtractorState,
        (extract_loop env es ([], s₁)).1 = (extract_loop env es ([], s₂)).1)
    ∧ aggregate env es = es.flatMap (element_records env) :=
  ⟨fun s₁ s₂ => by rw [extract_loop_records, extract_loop_records],
    aggregate_eq_flatMap env es⟩

/-- C8.  `save_to_csv` returns the chosen path paired with the number of
data records written (and produces the file) when the dialog is confirmed,
and returns no path with count 0 — writing no file — when the user
cancels. -/
theorem c8_save_to_csv_status (material_data : List Record) (p : String) :
    save_to_csv DialogOutcome.cancel material_data = ((none, 0), none)
    ∧ save_to_csv (DialogOutcome.ok p) material_data
        = ((some p, material_data.length),
          some ⟨p, all_fieldnames, material_data.map normalize_record⟩) :=
  ⟨rfl, rfl⟩

theorem lookup_map_self (g : String → PyObj) :
    ∀ (l : List String) (f : String), f ∈ l →
      (l.map (fun x => (x, g x))).lookup f = some (g f) := by
  intro l
  induction l with
  | nil => intro f hf; cases hf
  | cons a l ih =>
      intro f hf
      by_cases h : f = a
      · subst h
        simp [List.lookup]
      · rcases List.mem_cons.1 hf with h1 | h2
        · exact absurd h1 h
        · rw [List.map_cons]
          have hba : (f == a) = false := by
            simp [h]
          simp [List.lookup, hba]
          exact ih f h2

/-- C4.  Every row the exporter writes has exactly the fixed ordered
23-column set: `save_to_csv` normalizes each record over
`all_fieldnames`, every normalized row's key sequence equals
`all_fieldnames`, each column holds `record.get(field, "N/A")`, and a
field missing from the record is present in the row as the literal
`"N/A"`, never omitted. -/
theorem c4_fixed_columns (p : String) (data : List Record) (r : Record) :
    all_fieldnames.length = 23
    ∧ (save_to_csv (DialogOutcome.ok p) data).2
        = some ⟨p, all_fieldnames, data.map normalize_record⟩
    ∧ (normalize_record r).map Prod.fst = all_fieldnames
    ∧ (∀ f, f ∈ all_fieldnames →
        (normalize_record r).lookup f = some (record_get r f (pstr "N/A")))
    ∧ (∀ f, f ∈ all_fieldnames → r.lookup f = none →
        (normalize_record r).lookup f = some (pstr "N/A")) := by
  refine ⟨by decide, rfl, ?_, ?_, ?_⟩
  · simp only [normalize_record, List.map_map]
    exact List.map_id _
  · intro f hf
    exact lookup_map_self _ all_fieldnames f hf
  · intro f hf hnone
    have h1 : (normalize_record r).lookup f = some (record_get r f (pstr "N/A")) :=
      lookup_map_self _ all_fieldnames f hf
    rw [h1]
    simp [record_get, hnone]

/-- Witness for C4: the empty record normalizes to a row carrying the
literal `"N/A"` under `MaterialName`. -/
theorem c4_fixed_columns_witness :
    ("MaterialName" ∈ all_fieldnames)
    ∧ (([] : Record).lookup "MaterialName" = none)
    ∧ (normalize_record ([] : Record)).lookup "MaterialName" = some (pstr "N/A") :=
  ⟨by decide, rfl, (c4_fixed_columns "x" [] []).2.2.2.2 "MaterialName" (by decide) rfl⟩

theorem create_material_record_lookup_index (env : Env) (e : Elem) (info : EInfo)
    (layer : LayerRec) :
    (create_material_record env e info layer).lookup "LayerIndex"
      = some (pint layer.layerIndex) := rfl

theorem create_material_record_lookup_matid (env : Env) (e : Elem) (info : EInfo)
    (layer : LayerRec) :
    (create_material_record env e info layer).lookup "MaterialId"
      = some layer.materialId := rfl

theorem create_material_record_lookup_matname (env : Env) (e : Elem) (info : EInfo)
    (layer : LayerRec) :
    (create_material_record env e info layer).lookup "MaterialName"
      = some layer.materialName := rfl

theorem create_material_record_lookup_thickness (env : Env) (e : Elem) (info : EInfo)
    (layer : LayerRec) :
    (create_material_record env e info layer).lookup "Thickness_mm"
      = some (pstr (format_number layer.thickness)) := rfl

/-- The element-boundary case split of `_process_element` for an element
with a category and no modelled record-building exception. -/
theorem element_records_unfold (env : Env) (e : Elem) (c : Cat)
    (hc : e.category = some c) (hi : e.infoRaises = none) :
    element_records env e =
      (if get_material_layers env e ≠ [] then
        process_element_layers env e (get_element_info env e) (get_material_layers env e)
      else if process_element_fallback env e (get_element_info env e) ≠ [] then
        process_element_fallback env e (get_element_info env e)
      else create_basic_element_record env e (get_element_info env e)) := by
  unfold element_records process_element
  rw [hc, hi]
  dsimp only
  split
  · rfl
  · split <;> rfl

/-- Aggregating a singleton sequence gives that element's records. -/
theorem aggregate_singleton (env : Env) (e : Elem) :
    aggregate env [e] = element_records env e := by
  rw [aggregate_eq_flatMap]
  simp

/-- With a category present, every per-layer entry succeeds and carries its
enumeration index. -/
theorem layer_entry_ok (env : Env) (e : Elem) (c : Cat) (hc : e.category = some c)
    (i : Nat) (l : Layer) :
    ∃ r, layer_entry env e i l = Except.ok r ∧ r.layerIndex = (i : Int) := by
  unfold layer_entry
  cases l.materialId with
  | none =>
      dsimp only
      cases hcm : get_category_material_info e with
      | some cm => exact ⟨_, rfl, rfl⟩
      | none =>
          rw [hc]
          exact ⟨_, rfl, rfl⟩
  | some mid =>
      dsimp only
      cases hm : env.materials.lookup mid with
      | some m => exact ⟨_, rfl, rfl⟩
      | none => exact ⟨_, rfl, rfl⟩

/-- With a category present the layer loop never raises: it emits one
entry per layer, whose `LayerIndex` is the enumeration index. -/
theorem build_layers_index (env : Env) (e : Elem) (c : Cat) (hc : e.category = some c) :
    ∀ pl : List (Nat × Layer),
      (build_layers env e pl).map LayerRec.layerIndex = pl.map (fun il => (il.1 : Int)) := by
  intro pl
  induction pl with
  | nil => rfl
  | cons hd tl ih =>
      obtain ⟨i, l⟩ := hd
      obtain ⟨r, hr, hidx⟩ := layer_entry_ok env e c hc i l
      rw [build_layers, hr]
      simp [hidx, ih]

/-- The layer loop emits exactly one entry per layer (category present). -/
theorem build_layers_length (env : Env) (e : Elem) (c : Cat) (hc : e.category = some c)
    (pl : List (Nat × Layer)) :
    (build_layers env e pl).length = pl.length := by
  have h := build_layers_index env e c hc pl
  have := congrArg List.length h
  simpa using this

/-- C2.  For an entity (with a category, and no modelled exception) whose
Type Entity's compound structure has N ≥ 1 layers, aggregating the
singleton sequence containing it yields exactly N records, and the i-th
record (0-based, in stacking order) has `LayerIndex` equal to i — so the
emitted indices are distinct and contiguous from 0 to N-1. -/
theorem c2_layer_records (env : Env) (e : Elem) (c : Cat) (t : TypeE) (ls : List Layer)
    (hc : e.category = some c) (hi : e.infoRaises = none) (hcs : e.csRaises = none)
    (ht : e.typeE = some t) (hhas : t.hasCS = true) (hlayers : t.cs = some ls)
    (hne : ls ≠ []) :
    (aggregate env [e]).length = ls.length
    ∧ (aggregate env [e]).map (fun r => r.lookup "LayerIndex")
        = (List.range ls.length).map (fun i : Nat => some (pint (Int.ofNat i))) := by
  have hml : get_material_layers env e = build_layers env e ls.enum := by
    simp [get_material_layers, hcs, ht, hhas, hlayers]
  have henum : ls.enum.length = ls.length := List.enum_length
  have hbne : build_layers env e ls.enum ≠ [] := by
    intro h0
    have hlen := build_layers_length env e c hc ls.enum
    rw [h0] at hlen
    simp only [List.length_nil] at hlen
    rw [henum] at hlen
    exact hne (List.length_eq_zero.1 hlen.symm)
  have hrec : aggregate env [e]
      = (build_layers env e ls.enum).map
          (create_material_record env e (get_element_info env e)) := by
    rw [aggregate_singleton, element_records_unfold env e c hc hi, hml, if_pos hbne]
    rfl
  constructor
  · rw [hrec]
    rw [List.length_map, build_layers_length env e c hc, henum]
  · rw [hrec, List.map_map]
    have hcomp : ((fun r : Record => r.lookup "LayerIndex")
          ∘ create_material_record env e (get_element_info env e))
        = (fun layer : LayerRec => some (pint layer.layerIndex)) := by
      funext layer
      exact create_material_record_lookup_index env e (get_element_info env e) layer
    rw [hcomp]
    have hsplit : (fun layer : LayerRec => some (pint layer.layerIndex))
        = (fun x : Int => some (pint x)) ∘ LayerRec.layerIndex := rfl
    rw [hsplit, ← List.map_map, build_layers_index env e c hc]
    have hfst : (fun il : Nat × Layer => (il.1 : Int))
        = (fun n : Nat => (n : Int)) ∘ Prod.fst := rfl
    rw [hfst, ← List.map_map, List.enum_map_fst, List.map_map]
    rfl

/-- Fixture for the C2 witness: a wall whose type has two layers. -/
def c2Elem : Elem :=
  { id := 1
    category := some ⟨"Walls", none⟩
    pset := ⟨[], []⟩
    typeE := some ⟨10, some "Generic Wall", some "Walls", ⟨[], []⟩, true,
      some [⟨some 5, ⟨1, 1⟩⟩, ⟨none, ⟨2, 1⟩⟩]⟩
    typeId := 10
    exportGuid := none
    symbol := none
    wallType := some "Generic Wall"
    floorType := none
    roofType := none
    ownMaterialIds := []
    ownMaterialIdsOk := true
    stairsRuns := []
    csRaises := none
    infoRaises := none }

/-- Fixture for the C2 witness: one material, no unit API. -/
def c2Env : Env := ⟨[], none, none, none, [(5, ⟨"Concrete", some "Concrete"⟩)]⟩

/-- Witness for C2: the two-layer wall yields two records with layer
indices 0 and 1. -/
theorem c2_layer_records_witness :
    (aggregate c2Env [c2Elem]).length
        = ([⟨some 5, ⟨1, 1⟩⟩, ⟨none, ⟨2, 1⟩⟩] : List Layer).length
    ∧ (aggregate c2Env [c2Elem]).map (fun r => r.lookup "LayerIndex")
        = (List.range ([⟨some 5, ⟨1, 1⟩⟩, ⟨none, ⟨2, 1⟩⟩] : List Layer).length).map
            (fun i : Nat => some (pint (Int.ofNat i))) :=
  c2_layer_records c2Env c2Elem ⟨"Walls", none⟩
    ⟨10, some "Generic Wall", some "Walls", ⟨[], []⟩, true,
      some [⟨some 5, ⟨1, 1⟩⟩, ⟨none, ⟨2, 1⟩⟩]⟩
    [⟨some 5, ⟨1, 1⟩⟩, ⟨none, ⟨2, 1⟩⟩]
    rfl rfl rfl rfl rfl rfl (by decide)

/-- C10.  When the compound-structure layer enumeration raises (modelled
by `csRaises`), `get_material_layers` returns exactly one entry with
`LayerIndex = -1`, `MaterialId = "Error"`, `MaterialName` `"Error: "`
followed by the exception text and `Thickness_mm = "N/A"`, and that entry
becomes the one emitted record for the entity — carrying the negative
`LayerIndex` — rather than zero records. -/
theorem c10_layer_error_record (env : Env) (e : Elem) (c : Cat) (msg : String)
    (hc : e.category = some c) (hi : e.infoRaises = none) (hcs : e.csRaises = some msg) :
    get_material_layers env e
        = [⟨-1, pstr "Error", pstr ("Error: " ++ msg), pstr "N/A"⟩]
    ∧ aggregate env [e]
        = [create_material_record env e (get_element_info env e)
            ⟨-1, pstr "Error", pstr ("Error: " ++ msg), pstr "N/A"⟩]
    ∧ (aggregate env [e]).map (fun r =>
          (r.lookup "LayerIndex", r.lookup "MaterialId", r.lookup "MaterialName",
            r.lookup "Thickness_mm"))
        = [(some (pint (-1)), some (pstr "Error"), some (pstr ("Error: " ++ msg)),
            some (pstr "N/A"))] := by
  have hml : get_material_layers env e = [errorLayer msg] := by
    unfold get_material_layers
    rw [hcs]
  have hrec : aggregate env [e]
      = [create_material_record env e (get_element_info env e) (errorLayer msg)] := by
    rw [aggregate_singleton, element_records_unfold env e c hc hi, hml,
      if_pos (by simp : ([errorLayer msg] : List LayerRec) ≠ [])]
    rfl
  refine ⟨hml, hrec, ?_⟩
  rw [hrec]
  simp only [List.map_cons, List.map_nil]
  rw [create_material_record_lookup_index, create_material_record_lookup_matid,
    create_material_record_lookup_matname, create_material_record_lookup_thickness]
  rfl

/-- Fixture for the C10 witness: a wall whose layer enumeration raises. -/
def c10Elem : Elem :=
  { id := 3
    category := some ⟨"Walls", none⟩
    pset := ⟨[], []⟩
    typeE := some ⟨30, some "Bad Wall", some "Walls", ⟨[], []⟩, true, none⟩
    typeId := 30
    exportGuid := none
    symbol := none
    wallType := some "Bad Wall"
    floorType := none
    roofType := none
    ownMaterialIds := []
    ownMaterialIdsOk := true
    stairsRuns := []
    csRaises := some "boom"
    infoRaises := none }

/-- Fixture for the C10 witness. -/
def c10Env : Env := ⟨[], none, none, none, []⟩

/-- Witness for C10: the raising wall contributes exactly the one error
record. -/
theorem c10_layer_error_record_witness :
    get_material_layers c10Env c10Elem
        = [⟨-1, pstr "Error", pstr ("Error: " ++ "boom"), pstr "N/A"⟩]
    ∧ aggregate c10Env [c10Elem]
        = [create_material_record c10Env c10Elem (get_element_info c10Env c10Elem)
            ⟨-1, pstr "Error", pstr ("Error: " ++ "boom"), pstr "N/A"⟩]
    ∧ (aggregate c10Env [c10Elem]).map (fun r =>
          (r.lookup "LayerIndex", r.lookup "MaterialId", r.lookup "MaterialName",
            r.lookup "Thickness_mm"))
        = [(some (pint (-1)), some (pstr "Error"), some (pstr ("Error: " ++ "boom")),
            some (pstr "N/A"))] :=
  c10_layer_error_record c10Env c10Elem ⟨"Walls", none⟩ "boom" rfl rfl rfl

theorem fallback_length (env : Env) (e : Elem) (info : EInfo) :
    (process_element_fallback env e info).length
      = ((get_element_material_ids env e).filterMap
          (fun mid => env.materials.lookup mid)).length := by
  unfold process_element_fallback
  generalize get_element_material_ids env e = ids
  induction ids with
  | nil => rfl
  | cons a t ih =>
      rw [List.filterMap_cons, List.filterMap_cons]
      cases h : env.materials.lookup a with
      | none => simp [h, ih]
      | some m => simp [h, ih]

/-- C3 (amended).  For an entity with zero layers whose material-id
fallback resolves at least one material, aggregating the singleton
sequence yields exactly the fallback records: one record per distinct
resolved fallback material (so exactly 1 precisely when exactly one
material resolves), each with `LayerIndex = 0`. -/
theorem c3_fallback_records (env : Env) (e : Elem) (c : Cat)
    (hc : e.category = some c) (hi : e.infoRaises = none)
    (hml : get_material_layers env e = [])
    (hfb : process_element_fallback env e (get_element_info env e) ≠ []) :
    aggregate env [e] = process_element_fallback env e (get_element_info env e)
    ∧ (aggregate env [e]).length
        = ((get_element_material_ids env e).filterMap
            (fun mid => env.materials.lookup mid)).length
    ∧ (∀ r ∈ aggregate env [e], r.lookup "LayerIndex" = some (pint 0)) := by
  have hrec : aggregate env [e]
      = process_element_fallback env e (get_element_info env e) := by
    rw [aggregate_singleton, element_records_unfold env e c hc hi, hml,
      if_neg (by simp), if_pos hfb]
  refine ⟨hrec, ?_, ?_⟩
  · rw [hrec]
    exact fallback_length env e (get_element_info env e)
  · intro r hr
    rw [hrec] at hr
    unfold process_element_fallback at hr
    obtain ⟨mid, _, hsome⟩ := List.mem_filterMap.1 hr
    cases hm : env.materials.lookup mid with
    | none =>
        rw [hm] at hsome
        exact absurd hsome (by simp)
    | some m =>
        rw [hm] at hsome
        have hxr := Option.some.inj hsome
        rw [← hxr, create_material_record_lookup_index]

/-- Fixture for C3: an element with no compound structure and two resolved
materials from `GetMaterialIds`. -/
def c3Elem : Elem :=
  { id := 2
    category := some ⟨"Furniture", none⟩
    pset := ⟨[], []⟩
    typeE := some ⟨20, some "Chair", some "Furniture", ⟨[], []⟩, false, none⟩
    typeId := 20
    exportGuid := none
    symbol := none
    wallType := none
    floorType := none
    roofType := none
    ownMaterialIds := [1, 2]
    ownMaterialIdsOk := true
    stairsRuns := []
    csRaises := none
    infoRaises := none }

/-- Fixture for C3: two materials in the document. -/
def c3Env : Env := ⟨[], none, none, none, [(1, ⟨"Paint", none⟩), (2, ⟨"Steel", none⟩)]⟩

/-- Counterexample to C3 as stated: this zero-layer entity's fallback
resolves materials, yet aggregation yields 2 records, not exactly 1 — the
fallback emits one record per resolved material id. -/
theorem c3_counterexample :
    get_material_layers c3Env c3Elem = []
    ∧ process_element_fallback c3Env c3Elem (get_element_info c3Env c3Elem) ≠ []
    ∧ (aggregate c3Env [c3Elem]).length = 2
    ∧ ¬ (aggregate c3Env [c3Elem]).length = 1 := by decide

/-- Witness for the amended C3 at the concrete fixture. -/
theorem c3_fallback_records_witness :
    aggregate c3Env [c3Elem]
        = process_element_fallback c3Env c3Elem (get_element_info c3Env c3Elem)
    ∧ (aggregate c3Env [c3Elem]).length
        = ((get_element_material_ids c3Env c3Elem).filterMap
            (fun mid => c3Env.materials.lookup mid)).length
    ∧ (∀ r ∈ aggregate c3Env [c3Elem], r.lookup "LayerIndex" = some (pint 0)) :=
  c3_fallback_records c3Env c3Elem ⟨"Furniture", none⟩ rfl rfl (by decide) (by decide)

/-- C7.  For an entity with zero layers and no resolvable fallback
material: if its category is outside the configured allow-list,
aggregating the singleton sequence yields zero records; if it is inside,
exactly one placeholder record is emitted whose material fields carry the
"No Material Assigned" sentinel (`MaterialId = "No_Material"`,
`MaterialClass = "Unknown"`). -/
theorem c7_allowlist (env : Env) (e : Elem) (c : Cat)
    (hc : e.category = some c) (hi : e.infoRaises = none)
    (hml : get_material_layers env e = [])
    (hfb : process_element_fallback env e (get_element_info env e) = []) :
    (c.name ∉ relevant_categories → aggregate env [e] = [])
    ∧ (c.name ∈ relevant_categories →
        (aggregate env [e]).length = 1
        ∧ ∀ r ∈ aggregate env [e],
            r.lookup "MaterialId" = some (pstr "No_Material")
            ∧ r.lookup "MaterialName" = some (pstr "No Material Assigned")
            ∧ r.lookup "MaterialClass" = some (pstr "Unknown")
            ∧ r.lookup "LayerIndex" = some (pint 0)) := by
  have hrec : aggregate env [e]
      = create_basic_element_record env e (get_element_info env e) := by
    rw [aggregate_singleton, element_records_unfold env e c hc hi, hml,
      if_neg (by simp), hfb, if_neg (by simp)]
  constructor
  · intro hout
    rw [hrec]
    unfold create_basic_element_record
    rw [hc]
    dsimp only
    rw [if_neg hout]
  · intro hin
    rw [hrec]
    unfold create_basic_element_record
    rw [hc]
    dsimp only
    rw [if_pos hin]
    refine ⟨rfl, ?_⟩
    intro r hr
    rw [List.mem_singleton] at hr
    subst hr
    exact ⟨rfl, rfl, rfl, rfl⟩

/-- Fixture for the C7 witness: a category outside the allow-list, no
layers, no fallback materials. -/
def c7Elem : Elem :=
  { id := 4
    category := some ⟨"Mass", none⟩
    pset := ⟨[], []⟩
    typeE := some ⟨40, some "Blob", some "Mass", ⟨[], []⟩, false, none⟩
    typeId := 40
    exportGuid := none
    symbol := none
    wallType := none
    floorType := none
    roofType := none
    ownMaterialIds := []
    ownMaterialIdsOk := true
    stairsRuns := []
    csRaises := none
    infoRaises := none }

/-- Fixture for the C7 witness. -/
def c7Env : Env := ⟨[], none, none, none, []⟩

/-- Witness for C7: the "Mass" element (outside the allow-list, no layers,
no fallback) contributes zero records. -/
theorem c7_allowlist_witness : aggregate c7Env [c7Elem] = [] :=
  (c7_allowlist c7Env c7Elem ⟨"Mass", none⟩ rfl rfl (by decide) (by decide)).1 (by decide)

/-- C6.  An entity whose record building raises (modelled by `infoRaises`)
does not abort the run: the exception is caught at the entity boundary,
the entity contributes zero records, the `errors` counter is incremented
by exactly one, and aggregation of the surrounding sequence continues as
if the entity were absent. -/
theorem c6_error_isolated (env : Env) (s : ExtractorState) (d : Dbg)
    (es1 es2 : List Elem) (b : Elem) (c : Cat) (msg : String)
    (hc : b.category = some c) (hi : b.infoRaises = some msg) :
    element_records env b = []
    ∧ (process_element env d b).2.errors = d.errors + 1
    ∧ (extract_loop env (es1 ++ b :: es2) ([], s)).1
        = (extract_loop env (es1 ++ es2) ([], s)).1 := by
  have h1 : element_records env b = [] := by
    unfold element_records process_element
    rw [hc, hi]
  refine ⟨h1, ?_, ?_⟩
  · unfold process_element
    rw [hc, hi]
    dsimp only
    split <;> rfl
  · rw [extract_loop_records, extract_loop_records,
      List.flatMap_append, List.flatMap_append, List.flatMap_cons, h1]
    simp

/-- Fixture for the C6 witness: a wall whose record building raises. -/
def c6Elem : Elem :=
  { id := 6
    category := some ⟨"Walls", none⟩
    pset := ⟨[], []⟩
    typeE := none
    typeId := -1
    exportGuid := none
    symbol := none
    wallType := none
    floorType := none
    roofType := none
    ownMaterialIds := []
    ownMaterialIdsOk := true
    stairsRuns := []
    csRaises := none
    infoRaises := some "explosion" }

/-- Fixture for the C6 witness. -/
def c6Env : Env := ⟨[], none, none, none, []⟩

/-- Witness for C6 at the concrete raising element. -/
theorem c6_error_isolated_witness :
    element_records c6Env c6Elem = []
    ∧ (process_element c6Env (Dbg.init 1) c6Elem).2.errors = (Dbg.init 1).errors + 1
    ∧ (extract_loop c6Env ([] ++ c6Elem :: []) ([], ⟨0, 0, Dbg.init 1⟩)).1
        = (extract_loop c6Env ([] ++ []) ([], ⟨0, 0, Dbg.init 1⟩)).1 :=
  c6_error_isolated c6Env ⟨0, 0, Dbg.init 1⟩ (Dbg.init 1) [] [] c6Elem
    ⟨"Walls", none⟩ "explosion" rfl rfl

/-- Fixture for the C1 witness: one available built-in key. -/
def c1Env : Env := ⟨["DOOR_WIDTH"], none, none, none, []⟩

/-- Fixture for the C1 witness: the instance carries a string-valued
`DOOR_WIDTH` parameter. -/
def c1Inst : ParamSet :=
  ⟨[("DOOR_WIDTH", ⟨true, StorageType.string, ⟨0, 1⟩, 0, some "hello", none⟩)], []⟩

/-- Witness for C1 at a concrete environment and parameter set. -/
theorem c1_resolver_strict_precedence_witness :
    (get_parameter_value_comprehensive c1Env c1Inst none ["DOOR_WIDTH"] none ["Width"]
        = value_or_na none
            (resolver_candidates c1Env c1Inst none ["DOOR_WIDTH"] ["Width"]).head?)
    ∧ (get_parameter_value_comprehensive c1Env c1Inst none ["DOOR_WIDTH"] none ["Width"]
          = pstr "N/A"
        ↔ resolver_candidates c1Env c1Inst none ["DOOR_WIDTH"] ["Width"] = []) :=
  ⟨(c1_resolver_strict_precedence c1Env c1Inst none ["DOOR_WIDTH"] none ["Width"]).1,
    (c1_resolver_strict_precedence c1Env c1Inst none ["DOOR_WIDTH"] none ["Width"]).2
      (by decide)⟩

/-- Fixture for the C1 counterexample: a legacy-name parameter whose
stored string value is the literal `"N/A"`. -/
def c1xInst : ParamSet :=
  ⟨[], [("Width", ⟨true, StorageType.string, ⟨0, 1⟩, 0, some "N/A", none⟩)]⟩

/-- Fixture for the C1 counterexample. -/
def c1xEnv : Env := ⟨[], none, none, none, []⟩

/-- Counterexample to C1 as stated: here a candidate key resolves (the
candidate list is non-empty), yet the resolver returns the sentinel
`"N/A"`, because the resolved parameter's own string value is the literal
`"N/A"` — so "returns the sentinel if and only if no candidate resolves"
fails in the only-if direction. -/
theorem c1_counterexample :
    get_parameter_value_comprehensive c1xEnv c1xInst none [] none ["Width"] = pstr "N/A"
    ∧ resolver_candidates c1xEnv c1xInst none [] ["Width"] ≠ [] := by decide
